import Mathlib

/-!
Shallow embedding of the statistical risk-classification core of the
`ndvilandclass` repository.

The embedded code lives in three source files:

* `src/unnamed/part_000` — the PHP risk-statistics endpoint
  (`get_risk_statistics.php`): historic baseline query, current-snapshot
  selection and classification, cumulative per-tract SQL aggregation and
  report assembly.
* `src/teampage.js` — the front-end statistical helpers
  (`calculateStandardDeviation`, `calculateZScore`) and the Leaflet
  vulnerability/deviation layer scoring.
* `src/landclass2.js` — contains, appended to the map UI code, the PHP
  current-observations endpoint (`get_latest_temperatures.php`) with its
  `DISTINCT ON` per-tract query and its statistics block.

Modelling conventions:

* PHP/JS floating point numbers are idealised as rationals `ℚ` except where
  the behaviour of IEEE division by zero is itself what a claim is about —
  there a small `JSNum` type (finite / ±infinity / NaN) models the JavaScript
  semantics of `(t - mean) / stdDev` faithfully.
* Timestamps are integers (seconds); the SQL `interval '1 minute'` is 60.
* An SQL row of `temperature_observations INNER JOIN census_tracts` (on the
  foreign key `tract_id`) is modelled by a single `Row` record carrying both
  the observation fields and the joined tract attributes; the database state
  is a list of such joined rows.
* The SQL predicate `c.tract_id LIKE '36061%'` is modelled by the boolean
  field `inArea`, and `c.elderly_65plus > 0` by `0 < elderly`.
-/

namespace NdviRisk

/-- The four severity tiers shared by every classification table in the
source (`extreme` / `very_high` / `high` / `elevated`).  An observation that
matches no tier is represented by `Option.none` at use sites. -/
inductive Tier where
  | extreme
  | very_high
  | high
  | elevated
deriving DecidableEq, Repr

/-- A joined row of `temperature_observations INNER JOIN census_tracts`:
observation fields `observedAt` (timestamp, seconds) and `temp`
(`temperature_f`), tract attributes `elderly` (`elderly_65plus`) and
`inArea` (`tract_id LIKE '36061%'`). -/
structure Row where
  tractId : ℕ
  observedAt : ℤ
  temp : ℚ
  elderly : ℕ
  inArea : Bool
deriving DecidableEq, Repr

/-- The residential-only filter used throughout `src/unnamed/part_000`:
`c.tract_id LIKE '36061%' AND c.elderly_65plus > 0`. -/
def residential (r : Row) : Bool :=
  r.inArea && decide (0 < r.elderly)

/-- Rows the historic-baseline query aggregates over
(`src/unnamed/part_000` lines 65–73: the `FROM`/`WHERE` of query 2). -/
def baselineSrcRows (rows : List Row) : List Row :=
  rows.filter residential

/-- Temperatures feeding `AVG(t.temperature_f)` / `STDDEV(t.temperature_f)`
in the historic-baseline query. -/
def baselineTemps (rows : List Row) : List ℚ :=
  (baselineSrcRows rows).map (·.temp)

/-- Squared value of `calculateStandardDeviation` from `src/teampage.js`
lines 71–77: guard on the empty list, mean, squared differences, variance
divided by `values.length` (population variance); the JS function returns
`Math.sqrt` of this value, so we track the variance, of which the returned
standard deviation is the (monotone, injective on nonnegatives) square
root. -/
def calculateStandardDeviationSq (values : List ℚ) : ℚ :=
  if values.length = 0 then 0
  else
    let mean := values.sum / values.length
    let squaredDiffs := values.map fun val => (val - mean) ^ 2
    squaredDiffs.sum / values.length

/-- Squared value of the PostgreSQL aggregate `STDDEV(t.temperature_f)` used
by the historic-baseline query (`src/unnamed/part_000` line 68).  In
PostgreSQL `STDDEV` is an alias of `STDDEV_SAMP`: the sample standard
deviation, dividing the sum of squared differences by `N - 1`, and `NULL`
when fewer than two rows are aggregated; PHP `floatval(NULL)` then yields
`0`, which the `if` branch reproduces. -/
def sqlStddevSq (values : List ℚ) : ℚ :=
  if values.length < 2 then 0
  else
    let mean := values.sum / values.length
    (values.map fun val => (val - mean) ^ 2).sum / ((values.length - 1 : ℕ) : ℚ)

/-- Squared historic baseline stddev `$historicStdDev` of
`src/unnamed/part_000` lines 65–76: SQL `STDDEV` over the
residential-filtered observation history. -/
def historicStdDevSq (rows : List Row) : ℚ :=
  sqlStddevSq (baselineTemps rows)

/-- Historic baseline mean `$historicMean` (`AVG` over the
residential-filtered history; `floatval(NULL) = 0` on the empty set, which
`ℚ` division by zero also yields). -/
def historicMeanOf (rows : List Row) : ℚ :=
  (baselineTemps rows).sum / (baselineTemps rows).length

/-- Latest collection timestamp (`src/unnamed/part_000` lines 42–50):
`MAX(t.observed_at)` over the residential-filtered joined rows; `none`
models the SQL `NULL` on an empty set, which makes the endpoint exit with
an error. -/
def latestTime (rows : List Row) : Option ℤ :=
  ((rows.filter residential).map (·.observedAt)).max?

/-- Current-snapshot query (`src/unnamed/part_000` lines 84–98): all joined
rows with `observed_at` within `[latest - 1 minute, latest + 1 minute]`
that pass the residential filter.  No per-tract deduplication is
performed. -/
def snapshotRows (rows : List Row) (latest : ℤ) : List Row :=
  rows.filter fun r =>
    decide (latest - 60 ≤ r.observedAt) && decide (r.observedAt ≤ latest + 60)
      && residential r

/-- Row with the latest `observedAt` among a list, modelling the first row of
an `ORDER BY observed_at DESC` block; when two rows tie on `observedAt` the
later row in list order is kept (PostgreSQL leaves the tie unspecified). -/
def argmaxObs : List Row → Option Row
  | [] => none
  | r :: rs =>
    match argmaxObs rs with
    | none => some r
    | some best => if r.observedAt > best.observedAt then some r else some best

/-- Distinct tract ids occurring in a row list, in first-occurrence order. -/
def tractIds (rows : List Row) : List ℕ :=
  (rows.map (·.tractId)).dedup

/-- The data query of `get_latest_temperatures.php` (`src/landclass2.js`
lines 530–546): `SELECT DISTINCT ON (t.tract_id) … ORDER BY t.tract_id,
t.observed_at DESC` — for each tract id present, the row with the most
recent `observed_at`.  Note: this query applies no residential filter and
no time window. -/
def getLatestPerTract (rows : List Row) : List Row :=
  (tractIds rows).filterMap fun tid =>
    argmaxObs (rows.filter fun r => r.tractId == tid)

/-- The `avg_temp` statistic of `get_latest_temperatures.php`
(`src/landclass2.js` lines 571–581): the mean of `temperature_f` over the
`DISTINCT ON` rows, `null` when the row set is empty. -/
def glAvgTemp (rows : List Row) : Option ℚ :=
  let temps := (getLatestPerTract rows).map (·.temp)
  if temps.isEmpty then none else some (temps.sum / temps.length)

/-- The z-score of the classification loop of `src/unnamed/part_000`
line 153: `($historicStdDev > 0) ? ($temp - $historicMean) / $historicStdDev
: 0`. -/
def phpZScore (temp historicMean historicStdDev : ℚ) : ℚ :=
  if 0 < historicStdDev then (temp - historicMean) / historicStdDev else 0

/-- The helper `calculateZScore` of `src/teampage.js` lines 90–93:
`if (stdDev === 0) return 0; return (value - mean) / stdDev`. -/
def calculateZScore (value mean stdDev : ℚ) : ℚ :=
  if stdDev = 0 then 0 else (value - mean) / stdDev

/-- JavaScript IEEE-754 number restricted to the values reachable by the
layer-rendering z-score expressions: a finite value, the two infinities, or
NaN. -/
inductive JSNum where
  | fin (q : ℚ)
  | posInf
  | negInf
  | nan
deriving DecidableEq, Repr

/-- JavaScript division of finite operands: finite quotient when the
divisor is nonzero, otherwise `±Infinity` (sign of the dividend) or `NaN`
for `0 / 0`. -/
def jsDiv (a b : ℚ) : JSNum :=
  if b ≠ 0 then .fin (a / b)
  else if 0 < a then .posInf
  else if a < 0 then .negInf
  else .nan

/-- JavaScript comparison `n >= c` of a number against a finite constant:
`Infinity >= c` is true, `-Infinity >= c` and `NaN >= c` are false. -/
def jsGeQ (n : JSNum) (c : ℚ) : Bool :=
  match n with
  | .fin q => decide (c ≤ q)
  | .posInf => true
  | .negInf => false
  | .nan => false

/-- The layer-rendering z-score of `createHeatVulnerabilityLayerSD`
(`src/teampage.js` line 194): `(tempData.temp_f - mean) / stdDev`, with no
guard against `stdDev == 0`; the identical expression appears in the cold
vulnerability layer (line 254) and in both deviation layers (lines 307 and
335). -/
def layerZScore (temp mean stdDev : ℚ) : JSNum :=
  jsDiv (temp - mean) stdDev

/-- The gate `zScore >= 0.5` of `createHeatVulnerabilityLayerSD`
(`src/teampage.js` line 197) applied to the unguarded layer z-score. -/
def heatVulnLayerGate (temp mean stdDev : ℚ) : Bool :=
  jsGeQ (layerZScore temp mean stdDev) (1 / 2)

/-- Heat deviation classification of the loop in `src/unnamed/part_000`
lines 157–170: outer gate `zScore >= 0.5`, then the `elseif` chain
`>= 2.0` / `>= 1.5` / `>= 1.0` / `>= 0.5`, first match wins. -/
def heatDevTier (zScore : ℚ) : Option Tier :=
  if zScore ≥ 1 / 2 then
    if zScore ≥ 2 then some .extreme
    else if zScore ≥ 3 / 2 then some .very_high
    else if zScore ≥ 1 then some .high
    else if zScore ≥ 1 / 2 then some .elevated
    else none
  else none

/-- Heat vulnerability classification of `src/unnamed/part_000` lines
172–187: inside the `zScore >= 0.5` gate, `riskScore = zScore * 0.6 +
elderlyScore * 0.4`, then the `elseif` chain `>= 1.5` / `>= 1.2` / `>= 0.9`
/ `>= 0.5`. -/
def heatVulnTier (zScore elderlyScore : ℚ) : Option Tier :=
  if zScore ≥ 1 / 2 then
    let riskScore := zScore * (3 / 5) + elderlyScore * (2 / 5)
    if riskScore ≥ 3 / 2 then some .extreme
    else if riskScore ≥ 6 / 5 then some .very_high
    else if riskScore ≥ 9 / 10 then some .high
    else if riskScore ≥ 1 / 2 then some .elevated
    else none
  else none

/-- Cold deviation classification of `src/unnamed/part_000` lines 191–206:
outer gate `zScore <= -0.5`, `absZScore = abs(zScore)`, then the `elseif`
chain on `absZScore`. -/
def coldDevTier (zScore : ℚ) : Option Tier :=
  if zScore ≤ -(1 / 2) then
    let absZScore := |zScore|
    if absZScore ≥ 2 then some .extreme
    else if absZScore ≥ 3 / 2 then some .very_high
    else if absZScore ≥ 1 then some .high
    else if absZScore ≥ 1 / 2 then some .elevated
    else none
  else none

/-- Cold vulnerability classification of `src/unnamed/part_000` lines
208–223: inside the `zScore <= -0.5` gate, `riskScore = absZScore * 0.6 +
elderlyScore * 0.4`, then the composite `elseif` chain. -/
def coldVulnTier (zScore elderlyScore : ℚ) : Option Tier :=
  if zScore ≤ -(1 / 2) then
    let absZScore := |zScore|
    let riskScore := absZScore * (3 / 5) + elderlyScore * (2 / 5)
    if riskScore ≥ 3 / 2 then some .extreme
    else if riskScore ≥ 6 / 5 then some .very_high
    else if riskScore ≥ 9 / 10 then some .high
    else if riskScore ≥ 1 / 2 then some .elevated
    else none
  else none

/-- Composite-tier bucketing as worded by the spec (§4.4): boundaries
evaluated highest-first, `extreme ≥ 1.5`, `very_high ≥ 1.2`, `high ≥ 0.9`,
`elevated ≥ 0.5`, unclassified below `0.5`.  Kept as a separate, spec-side
definition to compare against the code-side `heatVulnTier` /
`coldVulnTier`. -/
def specCompositeBucket (riskScore : ℚ) : Option Tier :=
  if riskScore ≥ 3 / 2 then some .extreme
  else if riskScore ≥ 6 / 5 then some .very_high
  else if riskScore ≥ 9 / 10 then some .high
  else if riskScore ≥ 1 / 2 then some .elevated
  else none

/-- Number of snapshot rows the classification loop of
`src/unnamed/part_000` lines 148–225 counts into a given deviation tier of
a given branch (`branch` instantiates to `heatDevTier` or `coldDevTier`):
the loop increments one `count` cell per row whose branch classification
yields that tier. -/
def devTierCount (historicMean historicStdDev : ℚ) (rows : List Row)
    (branch : ℚ → Option Tier) (tier : Tier) : ℕ :=
  (rows.filter fun r =>
    decide (branch (phpZScore r.temp historicMean historicStdDev) = some tier)).length

/-- The SQL hot-exceedance test of the cumulative queries
(`src/unnamed/part_000` lines 243–247): `(temp - mean) / NULLIF(stddev, 0)
>= 0.5`.  When `stddev = 0` the quotient is SQL `NULL` and the comparison
does not match, so the `CASE` falls to its `ELSE` branch. -/
def sqlIsHot (mean stddev t : ℚ) : Bool :=
  decide (stddev ≠ 0) && decide ((t - mean) / stddev ≥ 1 / 2)

/-- The SQL cold-exceedance test (`src/unnamed/part_000` lines 250–254):
`(temp - mean) / NULLIF(stddev, 0) <= -0.5`, `NULL`-safe as in
`sqlIsHot`. -/
def sqlIsCold (mean stddev t : ℚ) : Bool :=
  decide (stddev ≠ 0) && decide ((t - mean) / stddev ≤ -(1 / 2))

/-- One observation's contribution to `cumulative_heat_risk`
(`src/unnamed/part_000` lines 243–247): the z-score when the hot test
matches, else `0`. -/
def sqlHeatContrib (mean stddev t : ℚ) : ℚ :=
  if sqlIsHot mean stddev t then (t - mean) / stddev else 0

/-- One observation's contribution to `cumulative_cold_risk`
(`src/unnamed/part_000` lines 250–254): the absolute z-score when the cold
test matches, else `0`. -/
def sqlColdContrib (mean stddev t : ℚ) : ℚ :=
  if sqlIsCold mean stddev t then |(t - mean) / stddev| else 0

/-- `cumulative_heat_risk` of the per-tract cumulative query
(`src/unnamed/part_000` lines 243–247): `AVG(CASE … ELSE 0 END)` over every
observation of the tract group. -/
def cumulativeHeatRisk (mean stddev : ℚ) (temps : List ℚ) : ℚ :=
  (temps.map (sqlHeatContrib mean stddev)).sum / temps.length

/-- `cumulative_cold_risk` (`src/unnamed/part_000` lines 250–254):
`AVG(CASE … ELSE 0 END)` over every observation of the tract group. -/
def cumulativeColdRisk (mean stddev : ℚ) (temps : List ℚ) : ℚ :=
  (temps.map (sqlColdContrib mean stddev)).sum / temps.length

/-- `heat_frequency` (`src/unnamed/part_000` line 257): count of
observations passing the hot test divided by the group size. -/
def heatFrequency (mean stddev : ℚ) (temps : List ℚ) : ℚ :=
  ((temps.filter (sqlIsHot mean stddev)).length : ℚ) / temps.length

/-- `cold_frequency` (`src/unnamed/part_000` line 260): count of
observations passing the cold test divided by the group size. -/
def coldFrequency (mean stddev : ℚ) (temps : List ℚ) : ℚ :=
  ((temps.filter (sqlIsCold mean stddev)).length : ℚ) / temps.length

/-- Fraction of a tract's observations whose pipeline z-score lies strictly
between `-0.5` and `0.5`.  The report does not emit this quantity; it is
the middle bucket named by the spec's bucket-partition property, defined
with the pipeline's guarded z-score (`phpZScore`). -/
def midFrequency (mean stddev : ℚ) (temps : List ℚ) : ℚ :=
  ((temps.filter fun t =>
      decide (-(1 / 2) < phpZScore t mean stddev)
        && decide (phpZScore t mean stddev < 1 / 2)).length : ℚ) / temps.length

/-- Average of the z-scores over only the hot-exceeding observations of a
tract.  The source never computes this; it is the alternative ("steeper")
reading of `cumulative_heat_risk` that the spec explicitly rules out, kept
to contrast with the code's frequency-weighted average. -/
def specExceedOnlyHeatAvg (mean stddev : ℚ) (temps : List ℚ) : ℚ :=
  let hot := temps.filter (sqlIsHot mean stddev)
  (hot.map fun t => (t - mean) / stddev).sum / hot.length

/-- Rows the per-tract cumulative query aggregates over
(`src/unnamed/part_000` lines 262–265: the `FROM`/`WHERE` of query 5),
before grouping: the residential filter again. -/
def cumulativeSrcRows (rows : List Row) : List Row :=
  rows.filter residential

/-- One row of the `tracts` array of the risk-statistics report: the
`SELECT` list of the per-tract cumulative query (`src/unnamed/part_000`
lines 232–269), minus the opaque `tract_name`. -/
structure CumTractRow where
  tractId : ℕ
  elderly : ℕ
  totalObservations : ℕ
  avgTemp : ℚ
  maxTemp : ℚ
  minTemp : ℚ
  cumulativeHeatRisk : ℚ
  cumulativeColdRisk : ℚ
  heatFrequency : ℚ
  coldFrequency : ℚ
deriving DecidableEq, Repr

/-- The per-tract cumulative query (`src/unnamed/part_000` lines 232–269):
group the residential-filtered joined rows by tract, keep groups with
`COUNT(*) >= 10` (`HAVING`), and compute the aggregate columns per group.
The `elderly` grouping column is read off the first row of the group
(every row of a tract carries the same joined tract attributes); the
`Option.getD 0` defaults for `MIN`/`MAX` are dead because each group is
nonempty. -/
def cumTractRows (historicMean historicStdDev : ℚ) (rows : List Row) :
    List CumTractRow :=
  (tractIds (cumulativeSrcRows rows)).filterMap fun tid =>
    let g := (cumulativeSrcRows rows).filter fun r => r.tractId == tid
    if 10 ≤ g.length then
      let temps := g.map (·.temp)
      some
        { tractId := tid
          elderly := ((g.head?).map (·.elderly)).getD 0
          totalObservations := g.length
          avgTemp := temps.sum / temps.length
          maxTemp := (temps.max?).getD 0
          minTemp := (temps.min?).getD 0
          cumulativeHeatRisk := cumulativeHeatRisk historicMean historicStdDev temps
          cumulativeColdRisk := cumulativeColdRisk historicMean historicStdDev temps
          heatFrequency := heatFrequency historicMean historicStdDev temps
          coldFrequency := coldFrequency historicMean historicStdDev temps }
    else none

/-- PHP `round` to an integer: half-away-from-zero rounding. -/
def phpRoundInt (x : ℚ) : ℤ :=
  if 0 ≤ x then ⌊x + 1 / 2⌋ else -⌊-x + 1 / 2⌋

/-- PHP `round($x, 2)`: round to two decimal places. -/
def phpRound2 (x : ℚ) : ℚ :=
  (phpRoundInt (x * 100) : ℚ) / 100

/-- The `global_averages` object of the risk-statistics response
(`src/unnamed/part_000` lines 573–576): `round($historicMean, 2)` and
`round($historicStdDev, 2)`. -/
def globalAverages (historicMean historicStdDev : ℚ) : ℚ × ℚ :=
  (phpRound2 historicMean, phpRound2 historicStdDev)

/-- The `tracts` field of the risk-statistics response
(`src/unnamed/part_000` line 590): the cumulative query rows passed through
unchanged — `'tracts' => $tractCumulativeData` applies no rounding. -/
def reportTracts (historicMean historicStdDev : ℚ) (rows : List Row) :
    List CumTractRow :=
  cumTractRows historicMean historicStdDev rows

/-- Concrete two-observation residential history with temperatures 0 and 2,
used to separate sample from population standard deviation. -/
def exRowsC1 : List Row :=
  [⟨1, 0, 0, 5, true⟩, ⟨2, 0, 2, 5, true⟩]

/-- Concrete history where one tract has two observations 30 seconds apart,
both inside the ±1-minute snapshot window. -/
def exRowsC2 : List Row :=
  [⟨1, 100, 50, 5, true⟩, ⟨1, 70, 49, 5, true⟩]

/-- Concrete store with a residential tract (temp 50) and a zero-elderly
tract (temp 90). -/
def exRowsC6 : List Row :=
  [⟨1, 0, 50, 5, true⟩, ⟨2, 0, 90, 0, true⟩]

/-- Ten temperatures whose z-scores against mean 0, stddev 1 are one `4`
and nine `0`s: the spec's cumulative-risk example tract. -/
def exTemps10 : List ℚ :=
  [4, 0, 0, 0, 0, 0, 0, 0, 0, 0]

/-- Mirror history for the cold side: one z-score of `-4`, nine `0`s. -/
def exTempsCold10 : List ℚ :=
  [-4, 0, 0, 0, 0, 0, 0, 0, 0, 0]

/-- Ten-observation history of a single residential tract which, against
historic mean 0 and stddev 3, has `cumulative_heat_risk = 2/15`, a value
with no finite two-decimal representation. -/
def exRowsC8 : List Row :=
  [⟨7, 0, 4, 3, true⟩, ⟨7, 1, 0, 3, true⟩, ⟨7, 2, 0, 3, true⟩,
   ⟨7, 3, 0, 3, true⟩, ⟨7, 4, 0, 3, true⟩, ⟨7, 5, 0, 3, true⟩,
   ⟨7, 6, 0, 3, true⟩, ⟨7, 7, 0, 3, true⟩, ⟨7, 8, 0, 3, true⟩,
   ⟨7, 9, 0, 3, true⟩]

theorem sum_sq_nonneg (values : List ℚ) (mean : ℚ) :
    0 ≤ (values.map fun val => (val - mean) ^ 2).sum := by
  apply List.sum_nonneg
  intro x hx
  obtain ⟨v, _, rfl⟩ := List.mem_map.mp hx
  positivity

/-- Claim C1, counterexample: on the two-observation residential history
with temperatures 0 and 2, the historic-baseline query (PostgreSQL
`STDDEV`, sample) yields squared stddev 2, while the population formula the
claim prescribes yields 1 — the Baseline Estimator does not divide by `N`,
and since the standard deviation is the square root of these values (and
square roots of distinct nonnegative rationals are distinct), the stddevs
feeding the downstream thresholds differ as well. -/
theorem c1_population_stddev_counterexample :
    historicStdDevSq exRowsC1 = 2 ∧
      calculateStandardDeviationSq (baselineTemps exRowsC1) = 1 ∧
      (2 : ℚ) ≠ 1 := by
  refine ⟨?_, ?_, by norm_num⟩
  · norm_num [historicStdDevSq, baselineTemps, baselineSrcRows, exRowsC1,
      residential, sqlStddevSq, List.filter]
  · norm_num [calculateStandardDeviationSq, baselineTemps, baselineSrcRows,
      exRowsC1, residential, List.filter]

/-- Claim C1, amended: the backend baseline stddev is the sample standard
deviation — its squared value satisfies `(N - 1) * sampleVar = N * popVar`
against the population variance computed by the front-end helper
`calculateStandardDeviation`, and is always at least the population
value, so every downstream z-score divides by the (weakly larger) sample
stddev rather than the population stddev the claim states. -/
theorem c1_sample_vs_population (values : List ℚ) (h : 2 ≤ values.length) :
    ((values.length : ℚ) - 1) * sqlStddevSq values =
        (values.length : ℚ) * calculateStandardDeviationSq values ∧
      calculateStandardDeviationSq values ≤ sqlStddevSq values := by
  have hlen0 : values.length ≠ 0 := by omega
  have hlt : ¬ values.length < 2 := by omega
  have hcast : ((values.length - 1 : ℕ) : ℚ) = (values.length : ℚ) - 1 := by
    have h1 : 1 ≤ values.length := by omega
    push_cast [h1]
    ring
  have hn1 : (0 : ℚ) < (values.length : ℚ) - 1 := by
    have : (2 : ℚ) ≤ (values.length : ℚ) := by exact_mod_cast h
    linarith
  have hn : (0 : ℚ) < (values.length : ℚ) := by positivity
  unfold sqlStddevSq calculateStandardDeviationSq
  simp only [hlen0, hlt, if_false, if_neg]
  constructor
  · rw [hcast]
    field_simp
  · rw [hcast]
    have hS := sum_sq_nonneg values (values.sum / values.length)
    gcongr
    linarith

/-- Claim C1, witness: the amended relation evaluated on the history
`[0, 2]`. -/
theorem c1_sample_vs_population_witness :
    ((([0, 2] : List ℚ).length : ℚ) - 1) * sqlStddevSq [0, 2] =
        (([0, 2] : List ℚ).length : ℚ) * calculateStandardDeviationSq [0, 2] ∧
      calculateStandardDeviationSq [0, 2] ≤ sqlStddevSq [0, 2] :=
  c1_sample_vs_population [0, 2] (by decide)

theorem argmaxObs_mem {l : List Row} {r : Row} (h : argmaxObs l = some r) :
    r ∈ l := by
  induction l with
  | nil => simp [argmaxObs] at h
  | cons a t ih =>
    simp only [argmaxObs] at h
    cases hm : argmaxObs t with
    | none =>
      rw [hm] at h
      simp only [Option.some.injEq] at h
      simp [h]
    | some best =>
      rw [hm] at h
      by_cases hgt : a.observedAt > best.observedAt
      · simp only [if_pos hgt, Option.some.injEq] at h
        simp [h]
      · simp only [if_neg hgt, Option.some.injEq] at h
        exact List.mem_cons_of_mem _ (ih (h ▸ hm))

theorem argmaxObs_key {rows : List Row} {tid : ℕ} {r : Row}
    (h : argmaxObs (rows.filter fun x => x.tractId == tid) = some r) :
    r.tractId = tid := by
  have hmem := argmaxObs_mem h
  have hf := List.mem_filter.mp hmem
  simpa using hf.2

theorem filterMap_key_filter_nil {tid : ℕ} (f : ℕ → Option Row)
    (hf : ∀ a r, f a = some r → r.tractId = a) :
    ∀ L : List ℕ, tid ∉ L →
      (L.filterMap f).filter (fun r => r.tractId == tid) = [] := by
  intro L
  induction L with
  | nil => simp
  | cons a t ih =>
    intro hnot
    have ha : a ≠ tid := by
      rintro rfl
      exact hnot (List.mem_cons_self a t)
    have ht : tid ∉ t := fun hm => hnot (List.mem_cons_of_mem _ hm)
    simp only [List.filterMap_cons]
    cases hfa : f a with
    | none => exact ih ht
    | some r =>
      have hk : (r.tractId == tid) = false := by
        simp [hf a r hfa, ha]
      simp [List.filter_cons, hk, ih ht]

theorem filterMap_key_filter_le_one {tid : ℕ} (f : ℕ → Option Row)
    (hf : ∀ a r, f a = some r → r.tractId = a) :
    ∀ L : List ℕ, L.Nodup →
      ((L.filterMap f).filter (fun r => r.tractId == tid)).length ≤ 1 := by
  intro L
  induction L with
  | nil => simp
  | cons a t ih =>
    intro hN
    obtain ⟨hnotmem, hN'⟩ := List.nodup_cons.mp hN
    simp only [List.filterMap_cons]
    cases hfa : f a with
    | none => exact ih hN'
    | some r =>
      by_cases heq : (r.tractId == tid) = true
      · have hkey := hf a r hfa
        have hatid : a = tid := by
          rw [← hkey]
          exact beq_iff_eq.mp heq
        have hrest := filterMap_key_filter_nil f hf t (hatid ▸ hnotmem)
        simp [List.filter_cons, heq, hrest]
      · simp only [List.filter_cons, heq, Bool.false_eq_true, if_false]
        exact ih hN'

theorem getLatestPerTract_at_most_one (rows : List Row) (tid : ℕ) :
    ((getLatestPerTract rows).filter fun r => r.tractId == tid).length ≤ 1 := by
  unfold getLatestPerTract tractIds
  exact filterMap_key_filter_le_one _ (fun a r h => argmaxObs_key h) _
    (List.nodup_dedup _)

/-- Claim C2, counterexample: with one tract observed at times 100 and 70
(both residential), the latest timestamp is 100, both observations fall
inside the ±60-second window, and the snapshot query — which performs no
per-tract deduplication — hands both rows of tract 1 to the current-round
classification loop. -/
theorem c2_no_dedup_counterexample :
    latestTime exRowsC2 = some 100 ∧
      ((snapshotRows exRowsC2 100).filter fun r => r.tractId == 1).length = 2 := by
  constructor
  · norm_num [latestTime, exRowsC2, residential, List.filter, List.max?]
  · norm_num [snapshotRows, exRowsC2, residential, List.filter]

/-- Claim C2, amended: the risk-statistics snapshot query selects exactly
the residential observations within `[latest - 60, latest + 60]` but keeps
every such row — deduplication to one row per tract (most recent first) is
performed only by the separate current-observations endpoint
(`get_latest_temperatures`, `DISTINCT ON`), which yields at most one row
per tract. -/
theorem c2_window_and_distinct_on :
    (∀ (rows : List Row) (latest : ℤ) (r : Row), r ∈ snapshotRows rows latest →
        residential r = true ∧ latest - 60 ≤ r.observedAt ∧
          r.observedAt ≤ latest + 60) ∧
      ∀ (rows : List Row) (tid : ℕ),
        ((getLatestPerTract rows).filter fun r => r.tractId == tid).length ≤ 1 := by
  constructor
  · intro rows latest r hr
    have h := (List.mem_filter.mp hr).2
    simp only [Bool.and_eq_true, decide_eq_true_eq] at h
    exact ⟨h.2, h.1.1, h.1.2⟩
  · exact getLatestPerTract_at_most_one

/-- Claim C2, witness: the window bounds and filter hold for the head row
of the concrete snapshot. -/
theorem c2_window_and_distinct_on_witness :
    residential ⟨1, 100, 50, 5, true⟩ = true ∧
      (100 : ℤ) - 60 ≤ (100 : ℤ) ∧ (100 : ℤ) ≤ (100 : ℤ) + 60 :=
  c2_window_and_distinct_on.1 exRowsC2 100 ⟨1, 100, 50, 5, true⟩
    (by norm_num [snapshotRows, exRowsC2, residential, List.filter])

/-- Claim C3, counterexample: the heat-vulnerability layer z-score at
`stddev = 0` and `t = 41 > mean = 40` is the unguarded JavaScript division
`1 / 0 = Infinity` — not `0` — and that infinite z-score passes the layer's
`zScore >= 0.5` gate, so the layer-rendering z-score does divide by a zero
stddev. -/
theorem c3_layer_unguarded_counterexample :
    layerZScore 41 40 0 = JSNum.posInf ∧
      heatVulnLayerGate 41 40 0 = true ∧
      JSNum.posInf ≠ JSNum.fin 0 := by
  refine ⟨?_, ?_, fun h => JSNum.noConfusion h⟩
  · norm_num [layerZScore, jsDiv]
  · norm_num [heatVulnLayerGate, layerZScore, jsDiv, jsGeQ]

/-- Claim C3, amended: the two guarded z-score computations — the server
classification ternary and the client helper `calculateZScore` — return `0`
at `stddev = 0` for every temperature, but the layer-rendering z-score
`(t - mean) / stdDev` has no zero guard and yields `Infinity` whenever
`stddev = 0` and `t > mean`. -/
theorem c3_guarded_zero_layer_unguarded :
    (∀ t m : ℚ, phpZScore t m 0 = 0) ∧
      (∀ t m : ℚ, calculateZScore t m 0 = 0) ∧
      ∀ t m : ℚ, m < t → layerZScore t m 0 = JSNum.posInf := by
  refine ⟨?_, ?_, ?_⟩
  · intro t m
    simp [phpZScore]
  · intro t m
    simp [calculateZScore]
  · intro t m h
    simp [layerZScore, jsDiv, sub_pos.mpr h]

/-- Claim C3, witness: the amended statement evaluated at `t = 41`,
`mean = 40`, `stddev = 0`. -/
theorem c3_guarded_zero_layer_unguarded_witness :
    layerZScore 41 40 0 = JSNum.posInf :=
  c3_guarded_zero_layer_unguarded.2.2 41 40 (by norm_num)


/-- Claim C4: for every gated observation the vulnerability risk score is
`|z| * 0.6 + elderlyScore * 0.4` bucketed highest-first against the
composite boundaries 1.5 / 1.2 / 0.9 / 0.5 (on the heat side the code uses
`z` itself, which equals `|z|` under the `z >= 0.5` gate), and the spec's
end-to-end example holds: mean 40, stddev 5, `t = 47.5` gives `z = 1.5`,
heat deviation tier `very_high`, risk score `1.14`, vulnerability tier
`high`. -/
theorem c4_composite_vulnerability :
    (∀ z e : ℚ, 1 / 2 ≤ z →
        heatVulnTier z e = specCompositeBucket (|z| * (3 / 5) + e * (2 / 5))) ∧
      (∀ z e : ℚ, z ≤ -(1 / 2) →
        coldVulnTier z e = specCompositeBucket (|z| * (3 / 5) + e * (2 / 5))) ∧
      phpZScore (95 / 2) 40 5 = 3 / 2 ∧
      heatDevTier (3 / 2) = some Tier.very_high ∧
      (3 / 2 : ℚ) * (3 / 5) + (3 / 5) * (2 / 5) = 57 / 50 ∧
      heatVulnTier (3 / 2) (3 / 5) = some Tier.high := by
  refine ⟨?_, ?_, ?_, ?_, by norm_num, ?_⟩
  · intro z e h
    have habs : |z| = z := abs_of_nonneg (by linarith)
    rw [habs]
    simp only [heatVulnTier, specCompositeBucket, ge_iff_le, if_pos h]
  · intro z e h
    simp only [coldVulnTier, specCompositeBucket, ge_iff_le]
    rw [if_pos h]
  · norm_num [phpZScore]
  · norm_num [heatDevTier]
  · norm_num [heatVulnTier]

/-- Claim C4, witness: the gated refinement evaluated at `z = 2`,
`elderlyScore = 0`. -/
theorem c4_composite_vulnerability_witness :
    heatVulnTier 2 0 = specCompositeBucket (|(2 : ℚ)| * (3 / 5) + 0 * (2 / 5)) :=
  c4_composite_vulnerability.1 2 0 (by norm_num)

theorem heatContrib_sum (mean sd : ℚ) (temps : List ℚ) :
    (temps.map (sqlHeatContrib mean sd)).sum =
      ((temps.filter (sqlIsHot mean sd)).map fun t => (t - mean) / sd).sum := by
  induction temps with
  | nil => simp
  | cons a t ih =>
    by_cases h : sqlIsHot mean sd a = true
    · simp [List.filter_cons, h, sqlHeatContrib, ih]
    · simp [List.filter_cons, h, sqlHeatContrib, ih]

theorem coldContrib_sum (mean sd : ℚ) (temps : List ℚ) :
    (temps.map (sqlColdContrib mean sd)).sum =
      ((temps.filter (sqlIsCold mean sd)).map fun t => |(t - mean) / sd|).sum := by
  induction temps with
  | nil => simp
  | cons a t ih =>
    by_cases h : sqlIsCold mean sd a = true
    · simp [List.filter_cons, h, sqlColdContrib, ih]
    · simp [List.filter_cons, h, sqlColdContrib, ih]

/-- Claim C5: `cumulative_heat_risk` (and symmetrically
`cumulative_cold_risk`) is the frequency-weighted average over all
observations — `N` times the reported value equals the sum of the exceeding
z-scores alone, the zero contributions of non-exceeding observations
counting in the denominator — and on the spec's example tract (one `z = 4`
among ten observations) it equals `0.4`, not the `4` an
exceeding-observations-only average would give. -/
theorem c5_cumulative_frequency_weighted (mean sd : ℚ) (temps : List ℚ)
    (h : temps ≠ []) :
    (temps.length : ℚ) * cumulativeHeatRisk mean sd temps =
        ((temps.filter (sqlIsHot mean sd)).map fun t => (t - mean) / sd).sum ∧
      (temps.length : ℚ) * cumulativeColdRisk mean sd temps =
        ((temps.filter (sqlIsCold mean sd)).map fun t => |(t - mean) / sd|).sum ∧
      cumulativeHeatRisk 0 1 exTemps10 = 2 / 5 ∧
      specExceedOnlyHeatAvg 0 1 exTemps10 = 4 ∧
      cumulativeHeatRisk 0 1 exTemps10 ≠ specExceedOnlyHeatAvg 0 1 exTemps10 ∧
      cumulativeColdRisk 0 1 exTempsCold10 = 2 / 5 := by
  have hN : (temps.length : ℚ) ≠ 0 := by
    have := List.length_pos.mpr h
    positivity
  have hheat : cumulativeHeatRisk 0 1 exTemps10 = 2 / 5 := by
    norm_num [cumulativeHeatRisk, sqlHeatContrib, sqlIsHot, exTemps10]
  have hexceed : specExceedOnlyHeatAvg 0 1 exTemps10 = 4 := by
    norm_num [specExceedOnlyHeatAvg, sqlIsHot, exTemps10, List.filter]
  refine ⟨?_, ?_, hheat, hexceed, ?_, ?_⟩
  · rw [cumulativeHeatRisk, heatContrib_sum]
    field_simp
  · rw [cumulativeColdRisk, coldContrib_sum]
    field_simp
  · rw [hheat, hexceed]
    norm_num
  · norm_num [cumulativeColdRisk, sqlColdContrib, sqlIsCold, exTempsCold10]

/-- Claim C5, witness: the sum identities evaluated on the one-observation
history `[1]` with mean 0, stddev 1. -/
theorem c5_cumulative_frequency_weighted_witness :
    (([1] : List ℚ).length : ℚ) * cumulativeHeatRisk 0 1 [1] =
      ((([1] : List ℚ).filter (sqlIsHot 0 1)).map fun t => (t - 0) / 1).sum :=
  (c5_cumulative_frequency_weighted 0 1 [1] (by simp)).1

/-- Claim C6, counterexample: on a store holding a residential tract
(temp 50) and a tract with `elderly_65plus = 0` (temp 90), the
current-observations endpoint returns the zero-elderly tract as one of its
rows and averages its temperature into `avg_temp` (70, not 50), while the
risk endpoint's baseline sees only the residential temperature — the
residential filter is not applied in both endpoints. -/
theorem c6_latest_endpoint_counterexample :
    ((getLatestPerTract exRowsC6).filter fun r => r.elderly == 0).length = 1 ∧
      glAvgTemp exRowsC6 = some 70 ∧
      baselineTemps exRowsC6 = [50] := by
  have hg : getLatestPerTract exRowsC6 = exRowsC6 := by decide
  refine ⟨by decide, ?_, by decide⟩
  rw [glAvgTemp, hg]
  norm_num [exRowsC6]

/-- Claim C6, amended: within the risk-statistics endpoint the
residential-only filter is applied identically — a row with
`elderly_65plus = 0` is excluded from the baseline aggregation, from the
current snapshot, and from the cumulative aggregation; the
current-observations endpoint (`get_latest_temperatures`), however, applies
no such filter. -/
theorem c6_risk_endpoint_filter_consistent (rows : List Row) (latest : ℤ)
    (r : Row) (h : r.elderly = 0) :
    r ∉ baselineSrcRows rows ∧ r ∉ snapshotRows rows latest ∧
      r ∉ cumulativeSrcRows rows := by
  refine ⟨fun hmem => ?_, fun hmem => ?_, fun hmem => ?_⟩
  · simp only [baselineSrcRows, List.mem_filter] at hmem
    simp [residential, h] at hmem
  · simp only [snapshotRows, List.mem_filter] at hmem
    simp [residential, h] at hmem
  · simp only [cumulativeSrcRows, List.mem_filter] at hmem
    simp [residential, h] at hmem

/-- Claim C6, witness: the zero-elderly row of the concrete store is in
none of the three risk-endpoint row sets. -/
theorem c6_risk_endpoint_filter_consistent_witness :
    (⟨2, 0, 90, 0, true⟩ : Row) ∉ baselineSrcRows exRowsC6 ∧
      (⟨2, 0, 90, 0, true⟩ : Row) ∉ snapshotRows exRowsC6 0 ∧
      (⟨2, 0, 90, 0, true⟩ : Row) ∉ cumulativeSrcRows exRowsC6 :=
  c6_risk_endpoint_filter_consistent exRowsC6 0 ⟨2, 0, 90, 0, true⟩ rfl


theorem three_filter_length {α : Type} (p q r : α → Bool)
    (h : ∀ a, (p a).toNat + (q a).toNat + (r a).toNat = 1) (l : List α) :
    (l.filter p).length + (l.filter q).length + (l.filter r).length
      = l.length := by
  induction l with
  | nil => simp
  | cons a t ih =>
    have ha := h a
    cases hp : p a <;> cases hq : q a <;> cases hr : r a <;>
      simp [hp, hq, hr, List.filter_cons] at ha ⊢ <;> omega

theorem bucket_trichotomy (mean sd : ℚ) (hsd : 0 ≤ sd) (t : ℚ) :
    (sqlIsHot mean sd t).toNat +
      ((decide (-(1 / 2) < phpZScore t mean sd)
        && decide (phpZScore t mean sd < 1 / 2)).toNat) +
      (sqlIsCold mean sd t).toNat = 1 := by
  rcases eq_or_lt_of_le hsd with h0 | hpos
  · simp [sqlIsHot, sqlIsCold, phpZScore, ← h0]
  · have hne : sd ≠ 0 := ne_of_gt hpos
    have hd : decide (sd ≠ 0) = true := by simp [hne]
    have hz_eq : phpZScore t mean sd = (t - mean) / sd := by
      rw [phpZScore, if_pos hpos]
    simp only [sqlIsHot, sqlIsCold, ge_iff_le, hd, Bool.true_and, hz_eq]
    rcases le_or_lt (1 / 2) ((t - mean) / sd) with hz | hz
    · rw [decide_eq_true hz, decide_eq_false (not_lt.mpr hz),
        decide_eq_false (show ¬ (t - mean) / sd ≤ -(1 / 2) by linarith)]
      simp
    · rcases le_or_lt ((t - mean) / sd) (-(1 / 2)) with hz2 | hz2
      · rw [decide_eq_false (not_le.mpr hz), decide_eq_false (not_lt.mpr hz2),
          decide_eq_true hz2]
        simp
      · rw [decide_eq_false (not_le.mpr hz), decide_eq_true hz2,
          decide_eq_true hz, decide_eq_false (not_le.mpr hz2)]
        simp

/-- Claim C7: for every tract group (any list of temperatures) and any
nonnegative stddev, the reported `heat_frequency`, the fraction of
observations with z-score strictly between `-0.5` and `0.5`, and the
reported `cold_frequency` sum to exactly 1 — every observation falls into
exactly one of the three z-score buckets. -/
theorem c7_frequency_partition (mean sd : ℚ) (temps : List ℚ)
    (hsd : 0 ≤ sd) (h : temps ≠ []) :
    heatFrequency mean sd temps + midFrequency mean sd temps +
      coldFrequency mean sd temps = 1 := by
  have hN : (temps.length : ℚ) ≠ 0 := by
    have := List.length_pos.mpr h
    positivity
  have hlen := three_filter_length (sqlIsHot mean sd)
    (fun t => decide (-(1 / 2) < phpZScore t mean sd)
      && decide (phpZScore t mean sd < 1 / 2))
    (sqlIsCold mean sd) (bucket_trichotomy mean sd hsd) temps
  rw [heatFrequency, midFrequency, coldFrequency, div_add_div_same,
    div_add_div_same, div_eq_one_iff_eq hN]
  exact_mod_cast hlen

/-- Claim C7, witness: the partition evaluated on the single-observation
history `[1]` with mean 0, stddev 1. -/
theorem c7_frequency_partition_witness :
    heatFrequency 0 1 [1] + midFrequency 0 1 [1] + coldFrequency 0 1 [1] = 1 :=
  c7_frequency_partition 0 1 [1] (by norm_num) (by simp)

theorem phpRoundInt_abs_le (x : ℚ) : |(phpRoundInt x : ℚ) - x| ≤ 1 / 2 := by
  rw [phpRoundInt]
  rcases le_or_lt 0 x with hx | hx
  · rw [if_pos hx, abs_le]
    constructor
    · have hlow := Int.sub_one_lt_floor (x + 1 / 2)
      linarith
    · have hup := Int.floor_le (x + 1 / 2)
      linarith
  · rw [if_neg (not_le.mpr hx), abs_le]
    push_cast
    constructor
    · have hup := Int.floor_le (-x + 1 / 2)
      linarith
    · have hlow := Int.sub_one_lt_floor (-x + 1 / 2)
      linarith

theorem phpRound2_abs_le (x : ℚ) : |phpRound2 x - x| ≤ 1 / 200 := by
  have h := phpRoundInt_abs_le (x * 100)
  rw [phpRound2, show (phpRoundInt (x * 100) : ℚ) / 100 - x
    = ((phpRoundInt (x * 100) : ℚ) - x * 100) / 100 by ring, abs_div]
  rw [show |(100 : ℚ)| = 100 by norm_num]
  linarith

/-- Claim C8, counterexample: on a ten-observation history whose
`cumulative_heat_risk` is `2/15` (one z-score of `4/3`, nine of `0`), the
`tracts` array of the report carries
the raw value `2/15`, which is not equal to its two-decimal rounding
`0.13` — the per-tract cumulative rows are emitted without rounding. -/
theorem c8_tracts_unrounded_counterexample :
    (reportTracts 0 3 exRowsC8).map (·.cumulativeHeatRisk) = [2 / 15] ∧
      phpRound2 (2 / 15) = 13 / 100 ∧ (2 / 15 : ℚ) ≠ 13 / 100 := by
  have hsrc : cumulativeSrcRows exRowsC8 = exRowsC8 := by decide
  have hids : tractIds exRowsC8 = [7] := by decide
  have hgrp : exRowsC8.filter (fun r => r.tractId == 7) = exRowsC8 := by decide
  refine ⟨?_, ?_, by norm_num⟩
  · rw [reportTracts, cumTractRows, hsrc, hids]
    rw [List.filterMap_cons, List.filterMap_nil, hgrp]
    norm_num [exRowsC8, cumulativeHeatRisk, sqlHeatContrib, sqlIsHot,
      cumulativeColdRisk, sqlColdContrib, sqlIsCold, heatFrequency,
      coldFrequency, List.filter]
  · rw [phpRound2, phpRoundInt, if_pos (by norm_num : (0 : ℚ) ≤ 2 / 15 * 100)]
    rw [show ((2 : ℚ) / 15 * 100 + 1 / 2) = 83 / 6 by norm_num]
    rw [show ⌊(83 : ℚ) / 6⌋ = 13 from by
      rw [Int.floor_eq_iff]
      norm_num]
    norm_num

/-- Claim C8, amended: the scalar floating report fields are rounded —
`global_averages` is exactly `round(mean, 2)` and `round(stddev, 2)`, each
an integer number of hundredths within half a hundredth of the true value —
but the `tracts` array is passed through from the cumulative query with no
rounding at all. -/
theorem c8_global_averages_rounded (m s : ℚ) :
    globalAverages m s = (phpRound2 m, phpRound2 s) ∧
      (∃ n : ℤ, (globalAverages m s).1 = (n : ℚ) / 100) ∧
      (∃ k : ℤ, (globalAverages m s).2 = (k : ℚ) / 100) ∧
      |(globalAverages m s).1 - m| ≤ 1 / 200 ∧
      |(globalAverages m s).2 - s| ≤ 1 / 200 ∧
      ∀ rows : List Row, reportTracts m s rows = cumTractRows m s rows :=
  ⟨rfl, ⟨phpRoundInt (m * 100), rfl⟩, ⟨phpRoundInt (s * 100), rfl⟩,
    phpRound2_abs_le m, phpRound2_abs_le s, fun _ => rfl⟩

/-- Claim C9: whenever the latest-timestamp query yields a timestamp, the
current-snapshot query is nonempty — the observation attaining the maximum
passes the same residential filter and lies inside its own ±1-minute
window — so the snapshot mean's division by the count and the `max()` over
elderly counts operate on a nonempty collection. -/
theorem c9_snapshot_nonempty (rows : List Row) (t0 : ℤ)
    (h : latestTime rows = some t0) :
    snapshotRows rows t0 ≠ [] ∧
      0 < ((snapshotRows rows t0).map (·.temp)).length := by
  rw [latestTime] at h
  have hmem : t0 ∈ (rows.filter residential).map (·.observedAt) :=
    List.max?_mem (fun a b => max_choice a b) h
  obtain ⟨r, hr, hrt⟩ := List.mem_map.mp hmem
  have hr2 := List.mem_filter.mp hr
  have hrm : r ∈ snapshotRows rows t0 := by
    refine List.mem_filter.mpr ⟨hr2.1, ?_⟩
    simp only [Bool.and_eq_true, decide_eq_true_eq]
    exact ⟨⟨by omega, by omega⟩, hr2.2⟩
  refine ⟨List.ne_nil_of_mem hrm, ?_⟩
  simp only [List.length_map]
  exact List.length_pos.mpr (List.ne_nil_of_mem hrm)

/-- Claim C9, witness: evaluated on the concrete store whose latest
residential timestamp is 100. -/
theorem c9_snapshot_nonempty_witness :
    snapshotRows exRowsC2 100 ≠ [] ∧
      0 < ((snapshotRows exRowsC2 100).map (·.temp)).length :=
  c9_snapshot_nonempty exRowsC2 100 (by decide)

theorem four_tier_filter_length (f : Row → Option Tier) (l : List Row) :
    (l.filter fun r => decide (f r = some Tier.extreme)).length +
      (l.filter fun r => decide (f r = some Tier.very_high)).length +
      (l.filter fun r => decide (f r = some Tier.high)).length +
      (l.filter fun r => decide (f r = some Tier.elevated)).length =
      (l.filter fun r => (f r).isSome).length := by
  induction l with
  | nil => simp
  | cons a t ih =>
    cases hf : f a with
    | none => simp [List.filter_cons, hf, ih]
    | some tier => cases tier <;> simp [List.filter_cons, hf] <;> omega

theorem heatDevTier_cold_none {z : ℚ} (h : heatDevTier z ≠ none) :
    coldDevTier z = none := by
  by_cases hz : z ≥ 1 / 2
  · rw [coldDevTier, if_neg (show ¬ z ≤ -(1 / 2) by push_neg; linarith)]
  · exact absurd (by rw [heatDevTier, if_neg hz]) h

theorem two_filter_disjoint_length {α : Type} (p q : α → Bool)
    (h : ∀ a, p a = false ∨ q a = false) (l : List α) :
    (l.filter p).length + (l.filter q).length ≤ l.length := by
  induction l with
  | nil => simp
  | cons a t ih =>
    simp only [List.filter_cons]
    rcases h a with ha | ha
    · rw [ha]
      cases hq : q a <;> simp <;> omega
    · rw [ha]
      cases hp : p a <;> simp <;> omega

/-- Claim C10: the heat branch and the cold branch of the classification
loop are mutually exclusive (no z-score is assigned both a heat and a cold
deviation tier), each `elseif` chain assigns at most one tier, and
consequently the eight deviation tier counts sum to at most the number of
snapshot rows. -/
theorem c10_deviation_tiers_disjoint (historicMean historicStdDev : ℚ)
    (rows : List Row) :
    (∀ z : ℚ, heatDevTier z = none ∨ coldDevTier z = none) ∧
      devTierCount historicMean historicStdDev rows heatDevTier .extreme +
        devTierCount historicMean historicStdDev rows heatDevTier .very_high +
        devTierCount historicMean historicStdDev rows heatDevTier .high +
        devTierCount historicMean historicStdDev rows heatDevTier .elevated +
        devTierCount historicMean historicStdDev rows coldDevTier .extreme +
        devTierCount historicMean historicStdDev rows coldDevTier .very_high +
        devTierCount historicMean historicStdDev rows coldDevTier .high +
        devTierCount historicMean historicStdDev rows coldDevTier .elevated
        ≤ rows.length := by
  have hexcl : ∀ z : ℚ, heatDevTier z = none ∨ coldDevTier z = none := by
    intro z
    by_cases hz : heatDevTier z = none
    · exact Or.inl hz
    · exact Or.inr (heatDevTier_cold_none hz)
  refine ⟨hexcl, ?_⟩
  have h4h := four_tier_filter_length
    (fun r => heatDevTier (phpZScore r.temp historicMean historicStdDev)) rows
  have h4c := four_tier_filter_length
    (fun r => coldDevTier (phpZScore r.temp historicMean historicStdDev)) rows
  have hdisj := two_filter_disjoint_length
    (fun r => (heatDevTier (phpZScore r.temp historicMean historicStdDev)).isSome)
    (fun r => (coldDevTier (phpZScore r.temp historicMean historicStdDev)).isSome)
    (fun a => by
      rcases hexcl (phpZScore a.temp historicMean historicStdDev) with h | h <;>
        simp [h]) rows
  simp only [devTierCount]
  omega

end NdviRisk
